import Mathlib

/-!
Shallow embedding of `src/telegram.py` of the `comfyui-telegram-send`
repository: the `TelegramSend` and `TelegramReply` node classes.

Modelling conventions:
* A pixel channel value is a rational number (the normalized floating-point
  values the claims exercise — 0.0, 1.0, 2.0 — and the scale factor 255.0 are
  all exactly representable, so rational arithmetic coincides with the
  floating-point arithmetic of the source on every input the claims mention).
* An `IMAGE` input is modelled by the image carried by the 1-element batch
  tensor: `x[0]` in the source selects that image, so an input is
  `Option Image` (`None` = input not wired).
* PNG encoding is lossless, so the byte buffer produced by
  `_tensor_to_buffer` is modelled by its decoded 8-bit pixel array.
* The outside world is explicit: the update batches returned by successive
  `getUpdates` calls are an oracle `stream : Nat → List Update` (batch per
  poll, in the order the polls are issued), and the `message_id` extracted
  from a successful dispatch response is an oracle `respond : Request → Int`.
  Every outbound HTTP request and every `time.sleep` is recorded in an event
  trace, so the claims about call counts, timeouts and payloads are
  statements about that trace.
* Python runtime errors that the claims mention are explicit:
  `ValueError` (raised by the source) and `NameError` (an unbound local
  variable, reachable at the `offset` advance of the polling loop).
-/

/-- A normalized pixel channel value (`tensor.cpu().numpy()` entries). -/
abbrev Pixel := ℚ

/-- An in-memory raster image: rows of channel values. -/
abbrev Image := List (List Pixel)

/-- The 8-bit encoded image standing for the PNG buffer (PNG is lossless). -/
abbrev Buffer := List (List ℕ)

/-- One channel value of `(tensor.cpu().numpy() * 255.0).clip(0, 255).astype(np.uint8)`:
scale by 255, clip into `[0, 255]`, truncate to an unsigned 8-bit integer
(the clipped value is non-negative, so truncation is the floor). -/
def pixelEncode (x : Pixel) : ℕ := (⌊min (max (x * 255) 0) 255⌋).toNat

/-- `TelegramSend._tensor_to_buffer`: encode every channel value of the image. -/
def tensor_to_buffer (t : Image) : Buffer := t.map (fun row => row.map pixelEncode)

/-- One element of the `media` list built by `_tensors_to_media_group`:
a JSON object with keys `type`, `media` and optionally `caption`,
`parse_mode` (absent keys are `none`). -/
structure MediaItem where
  type : String
  media : String
  caption : Option String
  parse_mode : Option String
deriving DecidableEq

/-- `TelegramSend._tensors_to_media_group`: one pass over the enumerated
images, producing the `media` descriptor list and the `files` mapping
(an insertion-ordered association list, as a Python dict is; its keys
`img{idx}.png` are pairwise distinct). `if idx == 0 and caption:` — a Python
string is truthy iff non-empty. -/
def tensors_to_media_group (images : List Image) (caption : String)
    (as_document : Bool) : List MediaItem × List (String × Buffer) :=
  let entries := images.enum.map (fun (p : ℕ × Image) =>
    let fname := "img" ++ toString p.1 ++ ".png"
    let media_item : MediaItem :=
      { type := if as_document then "document" else "photo"
        media := "attach://" ++ fname
        caption := if p.1 = 0 ∧ caption ≠ "" then some caption else none
        parse_mode := if p.1 = 0 ∧ caption ≠ "" then some "HTML" else none }
    (media_item, (fname, tensor_to_buffer p.2)))
  (entries.map Prod.fst, entries.map Prod.snd)

/-- An outbound HTTP request, as issued at a `requests.get`/`requests.post`
call site. `timeout` is the client-side timeout keyword argument
(`none` = the keyword was not passed, i.e. no client-side timeout).
In `sendMediaGroup`, `reply_to_message_id = none` means the form field is
absent (the `TelegramSend` call site), `some t` means the field is present
with value `t` (the `TelegramReply` call site, where `t` may be Python
`None`, i.e. null). -/
inductive Request where
  | getUpdates (offset : ℤ) (timeout : Option ℕ)
  | sendMediaGroup (chat_id : String) (reply_to_message_id : Option (Option ℤ))
      (media : List MediaItem) (files : List (String × Buffer)) (timeout : Option ℕ)
  | sendMessage (chat_id : String) (reply_to_message_id : Option ℤ)
      (text : String) (timeout : Option ℕ)
deriving DecidableEq

/-- An observable side effect: an outbound request or a `time.sleep(seconds)`. -/
inductive Event where
  | req (r : Request)
  | sleep (seconds : ℕ)
deriving DecidableEq

/-- A Python runtime error reachable in the modelled code. -/
inductive PyError where
  | nameError
  | valueError (msg : String)
deriving DecidableEq

/-- `TelegramSend.run`: gather the wired images, fail when there are none,
otherwise build the media group and POST it (timeout 60). The returned
trace lists the outbound requests in order. -/
def TelegramSend.run (bot_token channel_id : String)
    (image_1 image_2 image_3 image_4 image_5 : Option Image)
    (caption : String) (as_document : Bool) (respond : Request → ℤ) :
    Except PyError ℤ × List Event :=
  let tensors := [image_1, image_2, image_3, image_4, image_5].filterMap id
  if tensors = [] then
    (.error (.valueError "TelegramSend: Nothing to send"), [])
  else
    let mg := tensors_to_media_group tensors caption as_document
    let r := Request.sendMediaGroup channel_id none mg.1 mg.2 (some 60)
    (.ok (respond r), [.req r])

/-- A message object inside an update: `message_id` and the optional
`forward_from_message_id` key. -/
structure Msg where
  message_id : ℤ
  forward_from_message_id : Option ℤ
deriving DecidableEq

/-- One element of the `result` array of a `getUpdates` response.
`update.get("message", {})` yields a falsy value iff `message = none`. -/
structure Update where
  update_id : ℤ
  message : Option Msg
deriving DecidableEq

/-- Python truthiness of an `Optional[int]`: `None` and `0` are falsy. -/
def truthyOptInt : Option ℤ → Bool
  | none => false
  | some n => n != 0

/-- The inner `for update in updates` scan: each message whose
`forward_from_message_id` equals `reply_to` overwrites the resolved target
(last match wins); messages lacking the key, and updates lacking a message,
leave it unchanged. -/
def scanUpdates (reply_to : ℤ) (target : Option ℤ) : List Update → Option ℤ
  | [] => target
  | u :: rest =>
      scanUpdates reply_to
        (match u.message with
         | none => target
         | some m =>
             if m.forward_from_message_id = some reply_to then some m.message_id
             else target)
        rest

/-- No update of the batch carries a message forwarded from `rt`. -/
def batchNoMatch (rt : ℤ) (batch : List Update) : Prop :=
  ∀ u ∈ batch, ∀ m, u.message = some m → m.forward_from_message_id ≠ some rt

/-- The Python local state of the polling loop in `TelegramReply.run`:
the `offset` cursor, the (possibly resolved) `reply_to_message_id`, the
inner loop variable `update` (`none` while still unbound), and the trace
of events so far. -/
structure LoopState where
  offset : ℤ
  reply_to_message_id : Option ℤ
  lastUpdate : Option Update
  trace : List Event
deriving DecidableEq

/-- The `for _ in range(0, 30)` polling loop of `TelegramReply.run`,
iteration by iteration (`fuel` iterations remain, `i` polls were already
issued so the next batch is `stream i`). Each non-broken iteration issues
`getUpdates` with the current offset and no timeout keyword, scans the
batch, advances `offset = max(update["update_id"], offset)` — reading the
inner loop variable, which for an empty batch is the previous batch's last
update, or unbound (`NameError`) if no batch was ever non-empty — and
then sleeps 1 second. -/
def pollLoop (stream : ℕ → List Update) (reply_to : ℤ) :
    ℕ → ℕ → LoopState → Except (PyError × List Event) LoopState
  | 0, _, s => .ok s
  | fuel + 1, i, s =>
      if truthyOptInt s.reply_to_message_id then .ok s
      else
        let batch := stream i
        let target := scanUpdates reply_to s.reply_to_message_id batch
        match (if batch.isEmpty then s.lastUpdate else batch.getLast?) with
        | none => .error (.nameError, s.trace ++ [.req (.getUpdates s.offset none)])
        | some u =>
            pollLoop stream reply_to fuel (i + 1)
              { offset := max u.update_id s.offset
                reply_to_message_id := target
                lastUpdate := some u
                trace := s.trace ++ [.req (.getUpdates s.offset none), .sleep 1] }

/-- `TelegramReply.run`: run the polling loop (offset starts at −1, up to 30
iterations, broken as soon as `reply_to_message_id` is truthy), then
dispatch: a media group when images are present, else a text message when
the stripped text is non-empty, else `ValueError`. Both dispatch calls put
the current `reply_to_message_id` (possibly null) and timeout 60 in the
request. Returns the `(reply_to_message_id, reply message id)` pair and
the event trace. -/
def TelegramReply.run (stream : ℕ → List Update) (respond : Request → ℤ)
    (bot_token chat_id : String) (reply_to : ℤ)
    (reply_to_message_id : Option ℤ)
    (image_1 image_2 image_3 image_4 image_5 : Option Image)
    (text : String) (as_document : Bool) :
    Except PyError (Option ℤ × ℤ) × List Event :=
  let tensors := [image_1, image_2, image_3, image_4, image_5].filterMap id
  match pollLoop stream reply_to 30 0
      { offset := -1, reply_to_message_id := reply_to_message_id,
        lastUpdate := none, trace := [] } with
  | .error e => (.error e.1, e.2)
  | .ok s =>
      if tensors ≠ [] then
        let mg := tensors_to_media_group tensors text as_document
        let r := Request.sendMediaGroup chat_id (some s.reply_to_message_id)
          mg.1 mg.2 (some 60)
        (.ok (s.reply_to_message_id, respond r), s.trace ++ [.req r])
      else if text.trim ≠ "" then
        let r := Request.sendMessage chat_id s.reply_to_message_id text (some 60)
        (.ok (s.reply_to_message_id, respond r), s.trace ++ [.req r])
      else
        (.error (.valueError "TelegramReply: Nothing to send"), s.trace)

/-- Is this event a `getUpdates` request? -/
def isGetUpdates : Event → Bool
  | .req (.getUpdates _ _) => true
  | _ => false

/-- Number of `getUpdates` requests in a trace. -/
def countPolls (tr : List Event) : ℕ := tr.countP isGetUpdates

/-- Total seconds slept along a trace. -/
def totalSleep (tr : List Event) : ℕ :=
  (tr.map (fun e => match e with | .sleep n => n | _ => 0)).sum

/-- The offsets requested by the successive `getUpdates` calls of a trace. -/
def pollOffsets (tr : List Event) : List ℤ :=
  tr.filterMap (fun e => match e with
    | .req (.getUpdates o _) => some o
    | _ => none)

/-- Every request of the trace carries the timeout its call site passes:
no timeout keyword on `getUpdates`, 60 seconds on both delivery calls. -/
def timeoutsOK (tr : List Event) : Prop :=
  ∀ e ∈ tr, match e with
    | .req (.getUpdates _ t) => t = none
    | .req (.sendMediaGroup _ _ _ _ t) => t = some 60
    | .req (.sendMessage _ _ _ t) => t = some 60
    | .sleep _ => True

/-! ### Helper lemmas -/

theorem pixelEncode_zero : pixelEncode 0 = 0 := by
  unfold pixelEncode
  rw [show ((0 : ℚ) * 255) = 0 by norm_num, max_self, min_eq_left (by norm_num),
    show ⌊(0 : ℚ)⌋ = 0 by norm_num]
  rfl

theorem pixelEncode_one : pixelEncode 1 = 255 := by
  unfold pixelEncode
  rw [show ((1 : ℚ) * 255) = 255 by norm_num, max_eq_left (by norm_num),
    min_self, show ⌊(255 : ℚ)⌋ = 255 by norm_num]
  rfl

theorem pixelEncode_two : pixelEncode 2 = 255 := by
  unfold pixelEncode
  rw [show ((2 : ℚ) * 255) = 510 by norm_num, max_eq_left (by norm_num),
    min_eq_right (by norm_num), show ⌊(255 : ℚ)⌋ = 255 by norm_num]
  rfl

theorem tmg_fst_getElem (images : List Image) (caption : String)
    (as_document : Bool) (i : ℕ) :
    (tensors_to_media_group images caption as_document).1[i]?
      = images[i]?.map (fun _ =>
          { type := if as_document then "document" else "photo"
            media := "attach://" ++ ("img" ++ toString i ++ ".png")
            caption := if i = 0 ∧ caption ≠ "" then some caption else none
            parse_mode := if i = 0 ∧ caption ≠ "" then some "HTML" else none }) := by
  simp only [tensors_to_media_group, List.getElem?_map, List.getElem?_enum,
    Option.map_map]
  cases images[i]? <;> rfl

theorem tmg_snd_getElem (images : List Image) (caption : String)
    (as_document : Bool) (i : ℕ) :
    (tensors_to_media_group images caption as_document).2[i]?
      = images[i]?.map (fun t => ("img" ++ toString i ++ ".png", tensor_to_buffer t)) := by
  simp only [tensors_to_media_group, List.getElem?_map, List.getElem?_enum,
    Option.map_map]
  cases images[i]? <;> rfl

theorem attach_string (t : String) :
    "attach://" ++ ("img" ++ t ++ ".png") = "attach://img" ++ t ++ ".png" := by
  rw [← String.append_assoc, ← String.append_assoc]
  rfl

/-- C4: pixel encoding is scale-then-clamp: every entry of the encoded
buffer is `pixelEncode` of the corresponding input channel value, and a
normalized value of 0.0 encodes to 0, 1.0 to 255, and an out-of-range 2.0
clamps to 255 (rather than wrapping). -/
theorem pixel_scale_then_clamp (img : Image) (i j : ℕ) :
    ((tensor_to_buffer img).getD i []).getD j 0
        = pixelEncode ((img.getD i []).getD j 0) ∧
    pixelEncode 0 = 0 ∧ pixelEncode 1 = 255 ∧ pixelEncode 2 = 255 := by
  refine ⟨?_, pixelEncode_zero, pixelEncode_one, pixelEncode_two⟩
  rw [← pixelEncode_zero]
  show ((img.map (fun row => row.map pixelEncode)).getD i
      (List.map pixelEncode [])).getD j (pixelEncode 0)
    = pixelEncode ((img.getD i []).getD j 0)
  rw [List.getD_map, List.getD_map]

/-- C5: `TelegramSend.run` with all five image inputs absent fails with the
"Nothing to send" `ValueError` and an empty request trace — no media-group
request (nor any other) is issued. -/
theorem send_no_images_fails_no_requests (bot_token channel_id caption : String)
    (as_document : Bool) (respond : Request → ℤ) :
    TelegramSend.run bot_token channel_id none none none none none caption
        as_document respond
      = (.error (.valueError "TelegramSend: Nothing to send"), []) := rfl

/-- C2: for 1–5 images the media-group builder yields exactly N media items
and N payload entries; item i's `media` field is `attach://img{i}.png` and
payload entry i binds key `img{i}.png` to image i's encoded bytes, indices
starting at 0 in input order. -/
theorem media_group_items_and_payload_aligned
    (images : List Image) (caption : String) (as_document : Bool)
    (h1 : 1 ≤ images.length) (h5 : images.length ≤ 5) :
    (tensors_to_media_group images caption as_document).1.length = images.length ∧
    (tensors_to_media_group images caption as_document).2.length = images.length ∧
    ∀ i (h : i < images.length),
      ((tensors_to_media_group images caption as_document).1[i]?.map MediaItem.media
          = some ("attach://img" ++ toString i ++ ".png")) ∧
      ((tensors_to_media_group images caption as_document).2[i]?
          = some ("img" ++ toString i ++ ".png", tensor_to_buffer images[i])) := by
  refine ⟨?_, ?_, ?_⟩
  · simp [tensors_to_media_group, List.enum_length]
  · simp [tensors_to_media_group, List.enum_length]
  · intro i h
    rw [tmg_fst_getElem, tmg_snd_getElem, List.getElem?_eq_getElem h]
    constructor
    · rw [← attach_string]; rfl
    · rfl

/-- C3: the caption (with parse mode HTML) sits on item 0's descriptor iff
the caption is non-empty, and items 1..N−1 never carry a caption or a
parse-mode field. -/
theorem caption_only_on_first_item
    (images : List Image) (caption : String) (as_document : Bool) :
    ∀ i item,
      (tensors_to_media_group images caption as_document).1[i]? = some item →
      (i = 0 →
        ((item.caption = some caption ∧ item.parse_mode = some "HTML") ↔ caption ≠ "")) ∧
      (1 ≤ i → item.caption = none ∧ item.parse_mode = none) := by
  intro i item hitem
  rw [tmg_fst_getElem] at hitem
  match hv : images[i]? with
  | none => rw [hv] at hitem; simp at hitem
  | some v =>
      rw [hv] at hitem
      simp only [Option.map_some', Option.some.injEq] at hitem
      constructor
      · rintro rfl
        by_cases hc : caption = "" <;> simp [← hitem, hc]
      · intro hi
        have hne : ¬(i = 0 ∧ caption ≠ "") := fun hcon => by omega
        simp [← hitem, hne]

/-! ### Polling-loop helper lemmas -/

theorem pollLoop_of_truthy (stream : ℕ → List Update) (rt : ℤ) (fuel i : ℕ)
    (s : LoopState) (h : truthyOptInt s.reply_to_message_id = true) :
    pollLoop stream rt fuel i s = .ok s := by
  cases fuel with
  | zero => rfl
  | succ n => simp [pollLoop, h]

theorem pollLoop_step (stream : ℕ → List Update) (rt : ℤ) (fuel i : ℕ)
    (s : LoopState) (u : Update)
    (h : truthyOptInt s.reply_to_message_id = false)
    (hu : (stream i).getLast? = some u) :
    pollLoop stream rt (fuel + 1) i s
      = pollLoop stream rt fuel (i + 1)
          { offset := max u.update_id s.offset
            reply_to_message_id := scanUpdates rt s.reply_to_message_id (stream i)
            lastUpdate := some u
            trace := s.trace ++ [.req (.getUpdates s.offset none), .sleep 1] } := by
  have hne : (stream i).isEmpty = false := by
    cases hb : stream i with
    | nil => rw [hb] at hu; simp at hu
    | cons a l => rfl
  simp [pollLoop, h, hne, hu]

theorem pollLoop_offset_mono (stream : ℕ → List Update) (rt : ℤ) :
    ∀ fuel i s ss, pollLoop stream rt fuel i s = .ok ss → s.offset ≤ ss.offset := by
  intro fuel
  induction fuel with
  | zero =>
      intro i s ss h
      simp only [pollLoop, Except.ok.injEq] at h
      rw [← h]
  | succ n ih =>
      intro i s ss h
      cases ht : truthyOptInt s.reply_to_message_id with
      | true =>
          rw [pollLoop_of_truthy stream rt (n + 1) i s ht, Except.ok.injEq] at h
          rw [← h]
      | false =>
          simp only [pollLoop, ht, Bool.false_eq_true, if_false] at h
          cases hlu : (if (stream i).isEmpty then s.lastUpdate
              else (stream i).getLast?) with
          | none => rw [hlu] at h; simp at h
          | some u =>
              rw [hlu] at h
              exact le_trans (le_max_right _ _) (ih (i + 1) _ ss h)

theorem pollLoop_trace_extend (stream : ℕ → List Update) (rt : ℤ) :
    ∀ fuel i s,
      (∀ ss, pollLoop stream rt fuel i s = .ok ss → ∃ t, ss.trace = s.trace ++ t) ∧
      (∀ e, pollLoop stream rt fuel i s = .error e → ∃ t, e.2 = s.trace ++ t) := by
  intro fuel
  induction fuel with
  | zero =>
      intro i s
      constructor
      · intro ss h
        simp only [pollLoop, Except.ok.injEq] at h
        exact ⟨[], by rw [← h, List.append_nil]⟩
      · intro e h
        simp [pollLoop] at h
  | succ n ih =>
      intro i s
      cases ht : truthyOptInt s.reply_to_message_id with
      | true =>
          rw [pollLoop_of_truthy stream rt (n + 1) i s ht]
          constructor
          · intro ss h
            rw [Except.ok.injEq] at h
            exact ⟨[], by rw [← h, List.append_nil]⟩
          · intro e h
            simp at h
      | false =>
          constructor
          · intro ss h
            simp only [pollLoop, ht, Bool.false_eq_true, if_false] at h
            cases hlu : (if (stream i).isEmpty then s.lastUpdate
                else (stream i).getLast?) with
            | none => rw [hlu] at h; simp at h
            | some u =>
                rw [hlu] at h
                obtain ⟨t, htr⟩ := (ih (i + 1) _).1 ss h
                exact ⟨_, by rw [htr, List.append_assoc]⟩
          · intro e h
            simp only [pollLoop, ht, Bool.false_eq_true, if_false] at h
            cases hlu : (if (stream i).isEmpty then s.lastUpdate
                else (stream i).getLast?) with
            | none =>
                rw [hlu] at h
                simp only [Except.error.injEq] at h
                exact ⟨[.req (.getUpdates s.offset none)], by rw [← h]⟩
            | some u =>
                rw [hlu] at h
                obtain ⟨t, htr⟩ := (ih (i + 1) _).2 e h
                exact ⟨_, by rw [htr, List.append_assoc]⟩

theorem scanUpdates_noMatch (rt : ℤ) :
    ∀ (batch : List Update) (t : Option ℤ), batchNoMatch rt batch →
      scanUpdates rt t batch = t := by
  intro batch
  induction batch with
  | nil => intro t _; rfl
  | cons u rest ih =>
      intro t h
      have hrest : batchNoMatch rt rest := fun v hv => h v (List.mem_cons_of_mem _ hv)
      have hu := h u (List.mem_cons_self _ _)
      simp only [scanUpdates]
      cases hm : u.message with
      | none => exact ih t hrest
      | some m =>
          show scanUpdates rt
            (if m.forward_from_message_id = some rt then some m.message_id else t)
            rest = t
          rw [if_neg (by simpa using hu m hm)]
          exact ih t hrest

theorem countPolls_append (a b : List Event) :
    countPolls (a ++ b) = countPolls a + countPolls b := by
  simp [countPolls, List.countP_append]

theorem totalSleep_append (a b : List Event) :
    totalSleep (a ++ b) = totalSleep a + totalSleep b := by
  simp [totalSleep]

theorem countPolls_iter (o : ℤ) :
    countPolls [.req (.getUpdates o none), .sleep 1] = 1 := rfl

theorem totalSleep_iter (o : ℤ) :
    totalSleep [.req (.getUpdates o none), .sleep 1] = 1 := rfl

theorem pollLoop_noMatch (stream : ℕ → List Update) (rt : ℤ) :
    ∀ fuel i s, s.reply_to_message_id = none →
      (∀ k, i ≤ k → k < i + fuel → stream k ≠ [] ∧ batchNoMatch rt (stream k)) →
      ∃ ss, pollLoop stream rt fuel i s = .ok ss ∧ ss.reply_to_message_id = none ∧
        countPolls ss.trace = countPolls s.trace + fuel ∧
        totalSleep ss.trace = totalSleep s.trace + fuel := by
  intro fuel
  induction fuel with
  | zero =>
      intro i s hs _
      exact ⟨s, rfl, hs, rfl, rfl⟩
  | succ n ih =>
      intro i s hs hk
      have hne : stream i ≠ [] := (hk i (le_refl i) (by omega)).1
      have hnm : batchNoMatch rt (stream i) := (hk i (le_refl i) (by omega)).2
      have ht : truthyOptInt s.reply_to_message_id = false := by rw [hs]; rfl
      have hu : (stream i).getLast? = some ((stream i).getLast hne) :=
        List.getLast?_eq_getLast_of_ne_nil hne
      rw [pollLoop_step stream rt n i s _ ht hu]
      have hscan : scanUpdates rt s.reply_to_message_id (stream i) = none := by
        rw [hs]; exact scanUpdates_noMatch rt (stream i) none hnm
      obtain ⟨ss, hok, hss, hc, hts⟩ := ih (i + 1)
        { offset := max ((stream i).getLast hne).update_id s.offset
          reply_to_message_id := scanUpdates rt s.reply_to_message_id (stream i)
          lastUpdate := some ((stream i).getLast hne)
          trace := s.trace ++ [.req (.getUpdates s.offset none), .sleep 1] }
        hscan (fun k h1 h2 => hk k (by omega) (by omega))
      refine ⟨ss, hok, hss, ?_, ?_⟩
      · rw [hc, countPolls_append, countPolls_iter]; omega
      · rw [hts, totalSleep_append, totalSleep_iter]; omega

theorem timeoutsOK_append (a b : List Event) (ha : timeoutsOK a) (hb : timeoutsOK b) :
    timeoutsOK (a ++ b) := by
  intro e he
  rcases List.mem_append.mp he with h | h
  exacts [ha e h, hb e h]

theorem timeoutsOK_nil : timeoutsOK [] := by
  intro e he
  simp at he

theorem timeoutsOK_iter (o : ℤ) :
    timeoutsOK [.req (.getUpdates o none), .sleep 1] := by
  intro e he
  simp only [List.mem_cons, List.not_mem_nil, or_false] at he
  rcases he with rfl | rfl
  · trivial
  · trivial

theorem pollLoop_timeouts (stream : ℕ → List Update) (rt : ℤ) :
    ∀ fuel i s, timeoutsOK s.trace →
      (∀ ss, pollLoop stream rt fuel i s = .ok ss → timeoutsOK ss.trace) ∧
      (∀ e, pollLoop stream rt fuel i s = .error e → timeoutsOK e.2) := by
  intro fuel
  induction fuel with
  | zero =>
      intro i s hs
      constructor
      · intro ss h
        simp only [pollLoop, Except.ok.injEq] at h
        rw [← h]; exact hs
      · intro e h
        simp [pollLoop] at h
  | succ n ih =>
      intro i s hs
      cases ht : truthyOptInt s.reply_to_message_id with
      | true =>
          rw [pollLoop_of_truthy stream rt (n + 1) i s ht]
          constructor
          · intro ss h
            rw [Except.ok.injEq] at h
            rw [← h]; exact hs
          · intro e h
            simp at h
      | false =>
          constructor
          · intro ss h
            simp only [pollLoop, ht, Bool.false_eq_true, if_false] at h
            cases hlu : (if (stream i).isEmpty then s.lastUpdate
                else (stream i).getLast?) with
            | none => rw [hlu] at h; simp at h
            | some u =>
                rw [hlu] at h
                exact (ih (i + 1) _ (timeoutsOK_append _ _ hs (timeoutsOK_iter _))).1 ss h
          · intro e h
            simp only [pollLoop, ht, Bool.false_eq_true, if_false] at h
            cases hlu : (if (stream i).isEmpty then s.lastUpdate
                else (stream i).getLast?) with
            | none =>
                rw [hlu] at h
                simp only [Except.error.injEq] at h
                rw [← h]
                refine timeoutsOK_append _ _ hs ?_
                intro e2 he2
                simp only [List.mem_cons, List.not_mem_nil, or_false] at he2
                rw [he2]
            | some u =>
                rw [hlu] at h
                exact (ih (i + 1) _ (timeoutsOK_append _ _ hs (timeoutsOK_iter _))).2 e h

theorem run_of_error (stream : ℕ → List Update) (respond : Request → ℤ)
    (bot_token chat_id : String) (rt : ℤ) (rtmid : Option ℤ)
    (i1 i2 i3 i4 i5 : Option Image) (text : String) (doc : Bool)
    (e : PyError × List Event)
    (herr : pollLoop stream rt 30 0
        { offset := -1, reply_to_message_id := rtmid, lastUpdate := none,
          trace := [] } = .error e) :
    TelegramReply.run stream respond bot_token chat_id rt rtmid i1 i2 i3 i4 i5 text doc
      = (.error e.1, e.2) := by
  simp only [TelegramReply.run, herr]

theorem run_trace_shape (stream : ℕ → List Update) (respond : Request → ℤ)
    (bot_token chat_id : String) (rt : ℤ) (rtmid : Option ℤ)
    (i1 i2 i3 i4 i5 : Option Image) (text : String) (doc : Bool) (ss : LoopState)
    (hok : pollLoop stream rt 30 0
        { offset := -1, reply_to_message_id := rtmid, lastUpdate := none,
          trace := [] } = .ok ss) :
    ∃ rest,
      (TelegramReply.run stream respond bot_token chat_id rt rtmid i1 i2 i3 i4 i5
          text doc).2 = ss.trace ++ rest ∧
      countPolls rest = 0 ∧ totalSleep rest = 0 ∧ timeoutsOK rest := by
  simp only [TelegramReply.run, hok]
  by_cases h1 : [i1, i2, i3, i4, i5].filterMap id ≠ []
  · rw [if_pos h1]
    refine ⟨_, rfl, rfl, rfl, ?_⟩
    intro e he
    simp only [List.mem_cons, List.not_mem_nil, or_false] at he
    rw [he]
  · rw [if_neg h1]
    by_cases h2 : text.trim ≠ ""
    · rw [if_pos h2]
      refine ⟨_, rfl, rfl, rfl, ?_⟩
      intro e he
      simp only [List.mem_cons, List.not_mem_nil, or_false] at he
      rw [he]
    · rw [if_neg h2]
      exact ⟨[], (List.append_nil ss.trace).symm, rfl, rfl, timeoutsOK_nil⟩

/-- C1 (amended): when the 30 polling iterations find no matching update
(resolve mode, no direct target), `TelegramReply.run` does not fail — it
proceeds to dispatch, and the dispatch request carries
`reply_to_message_id` present with value null (`some none`). -/
theorem reply_unresolved_dispatch_null_target
    (stream : ℕ → List Update) (respond : Request → ℤ)
    (bot_token chat_id : String) (rt : ℤ) (img : Image)
    (i2 i3 i4 i5 : Option Image) (text : String) (doc : Bool)
    (hk : ∀ k, k < 30 → stream k ≠ [] ∧ batchNoMatch rt (stream k)) :
    (TelegramReply.run stream respond bot_token chat_id rt none (some img)
        i2 i3 i4 i5 text doc).1
      = .ok (none, respond (.sendMediaGroup chat_id (some none)
          (tensors_to_media_group (img :: [i2, i3, i4, i5].filterMap id) text doc).1
          (tensors_to_media_group (img :: [i2, i3, i4, i5].filterMap id) text doc).2
          (some 60))) ∧
    (TelegramReply.run stream respond bot_token chat_id rt none (some img)
        i2 i3 i4 i5 text doc).2.getLast?
      = some (.req (.sendMediaGroup chat_id (some none)
          (tensors_to_media_group (img :: [i2, i3, i4, i5].filterMap id) text doc).1
          (tensors_to_media_group (img :: [i2, i3, i4, i5].filterMap id) text doc).2
          (some 60))) := by
  obtain ⟨ss, hok, hnone, -, -⟩ := pollLoop_noMatch stream rt 30 0
    ⟨-1, none, none, []⟩ rfl (fun k h1 h2 => hk k (by omega))
  have hfm : ([some img, i2, i3, i4, i5].filterMap id)
      = img :: [i2, i3, i4, i5].filterMap id := rfl
  have hne : ([some img, i2, i3, i4, i5].filterMap id) ≠ [] := by
    rw [hfm]; exact List.cons_ne_nil _ _
  simp only [TelegramReply.run, hok]
  rw [if_pos hne, hfm, hnone]
  exact ⟨rfl, List.getLast?_concat _⟩

/-- C6 (amended): with no direct target and a never-matching stream of
non-empty batches, `reply` issues exactly 30 `getUpdates` calls and sleeps
30 seconds in total (the last iteration sleeps too); and once
`reply_to_message_id` is truthy the loop stops at once, with no further
poll, sleep or state change. -/
theorem reply_poll_sleep_counts :
    (∀ (stream : ℕ → List Update) (respond : Request → ℤ)
        (bot_token chat_id : String) (rt : ℤ) (i1 i2 i3 i4 i5 : Option Image)
        (text : String) (doc : Bool),
      (∀ k, k < 30 → stream k ≠ [] ∧ batchNoMatch rt (stream k)) →
      countPolls (TelegramReply.run stream respond bot_token chat_id rt none
          i1 i2 i3 i4 i5 text doc).2 = 30 ∧
      totalSleep (TelegramReply.run stream respond bot_token chat_id rt none
          i1 i2 i3 i4 i5 text doc).2 = 30) ∧
    (∀ (stream : ℕ → List Update) (rt : ℤ) (fuel i : ℕ) (s : LoopState),
      truthyOptInt s.reply_to_message_id = true →
      pollLoop stream rt fuel i s = .ok s) := by
  refine ⟨?_, pollLoop_of_truthy⟩
  intro stream respond bot_token chat_id rt i1 i2 i3 i4 i5 text doc hk
  obtain ⟨ss, hok, -, hc, hts⟩ := pollLoop_noMatch stream rt 30 0
    ⟨-1, none, none, []⟩ rfl (fun k h1 h2 => hk k (by omega))
  obtain ⟨rest, htr, hcr, hsr, -⟩ := run_trace_shape stream respond bot_token
    chat_id rt none i1 i2 i3 i4 i5 text doc ss hok
  rw [htr, countPolls_append, totalSleep_append, hc, hts, hcr, hsr]
  constructor <;> simp [countPolls, totalSleep]

/-- C6 counterexample: on a concrete never-matching stream the total
sleeping is 30 seconds, not the 29 the claim asserts. -/
theorem reply_exhaustion_sleeps_thirty :
    totalSleep (TelegramReply.run (fun _ => [⟨1, none⟩]) (fun _ => 77) "b" "c" 42
        none (some []) none none none none "" false).2 = 30 ∧
    totalSleep (TelegramReply.run (fun _ => [⟨1, none⟩]) (fun _ => 77) "b" "c" 42
        none (some []) none none none none "" false).2 ≠ 29 := by
  constructor <;> decide

/-- C7 (amended): a nonzero direct `reply_to_message_id` suppresses all
polling: no `getUpdates` call and no sleep, whatever the other inputs. -/
theorem reply_nonzero_direct_no_polls
    (stream : ℕ → List Update) (respond : Request → ℤ)
    (bot_token chat_id : String) (rt : ℤ) (n : ℤ)
    (i1 i2 i3 i4 i5 : Option Image) (text : String) (doc : Bool)
    (hn : n ≠ 0) :
    countPolls (TelegramReply.run stream respond bot_token chat_id rt (some n)
        i1 i2 i3 i4 i5 text doc).2 = 0 ∧
    totalSleep (TelegramReply.run stream respond bot_token chat_id rt (some n)
        i1 i2 i3 i4 i5 text doc).2 = 0 := by
  have ht : truthyOptInt (some n) = true := by simp [truthyOptInt, hn]
  have hok := pollLoop_of_truthy stream rt 30 0 ⟨-1, some n, none, []⟩ ht
  obtain ⟨rest, htr, hcr, hsr, -⟩ := run_trace_shape stream respond bot_token
    chat_id rt (some n) i1 i2 i3 i4 i5 text doc _ hok
  rw [htr, countPolls_append, totalSleep_append, hcr, hsr]
  constructor <;> simp [countPolls, totalSleep]

/-- C7 counterexample: a supplied-but-zero `reply_to_message_id` is falsy in
Python, so the loop polls 30 times even though a literal target was given. -/
theorem reply_zero_direct_target_polls :
    countPolls (TelegramReply.run (fun _ => [⟨1, none⟩]) (fun _ => 77) "b" "c" 42
        (some 0) (some []) none none none none "" false).2 = 30 ∧
    countPolls (TelegramReply.run (fun _ => [⟨1, none⟩]) (fun _ => 77) "b" "c" 42
        (some 0) (some []) none none none none "" false).2 ≠ 0 := by
  constructor <;> decide

theorem run_trace_head (stream : ℕ → List Update) (respond : Request → ℤ)
    (bot_token chat_id : String) (rt : ℤ) (rtmid : Option ℤ)
    (i1 i2 i3 i4 i5 : Option Image) (text : String) (doc : Bool)
    (ht : truthyOptInt rtmid = false) (h0 : stream 0 ≠ []) :
    ∃ l, (TelegramReply.run stream respond bot_token chat_id rt rtmid i1 i2 i3 i4 i5
        text doc).2 = .req (.getUpdates (-1) none) :: l := by
  obtain ⟨u, hu⟩ : ∃ u, (stream 0).getLast? = some u :=
    ⟨(stream 0).getLast h0, List.getLast?_eq_getLast_of_ne_nil h0⟩
  have hstep : pollLoop stream rt 30 0
      { offset := -1, reply_to_message_id := rtmid, lastUpdate := none, trace := [] }
      = pollLoop stream rt 29 1
      { offset := max u.update_id (-1)
        reply_to_message_id := scanUpdates rt rtmid (stream 0)
        lastUpdate := some u
        trace := [.req (.getUpdates (-1) none), .sleep 1] } :=
    pollLoop_step stream rt 29 0 _ u ht hu
  cases hres : pollLoop stream rt 29 1
      { offset := max u.update_id (-1)
        reply_to_message_id := scanUpdates rt rtmid (stream 0)
        lastUpdate := some u
        trace := [.req (.getUpdates (-1) none), .sleep 1] } with
  | ok ss =>
      rw [hres] at hstep
      obtain ⟨t, htt⟩ := (pollLoop_trace_extend stream rt 29 1 _).1 ss hres
      obtain ⟨rest, htr, -, -, -⟩ := run_trace_shape stream respond bot_token chat_id
        rt rtmid i1 i2 i3 i4 i5 text doc ss hstep
      refine ⟨.sleep 1 :: (t ++ rest), ?_⟩
      rw [htr, htt]
      simp
  | error e =>
      rw [hres] at hstep
      obtain ⟨t, htt⟩ := (pollLoop_trace_extend stream rt 29 1 _).2 e hres
      rw [run_of_error stream respond bot_token chat_id rt rtmid i1 i2 i3 i4 i5
        text doc e hstep]
      refine ⟨.sleep 1 :: t, ?_⟩
      simp [htt]

/-- C8: the update-offset cursor protocol: (a) the first poll of a resolve-mode
`reply` requests offset −1; (b) each poll iteration advances the offset to
`max(last update id of the batch, previous offset)`; (c) the offset never
decreases over the iterations of one invocation. -/
theorem offset_cursor_init_step_monotone :
    (∀ (stream : ℕ → List Update) (respond : Request → ℤ)
        (bot_token chat_id : String) (rt : ℤ) (rtmid : Option ℤ)
        (i1 i2 i3 i4 i5 : Option Image) (text : String) (doc : Bool),
      truthyOptInt rtmid = false → stream 0 ≠ [] →
      (pollOffsets (TelegramReply.run stream respond bot_token chat_id rt rtmid
          i1 i2 i3 i4 i5 text doc).2).head? = some (-1)) ∧
    (∀ (stream : ℕ → List Update) (rt : ℤ) (fuel i : ℕ) (s : LoopState) (u : Update),
      truthyOptInt s.reply_to_message_id = false →
      (stream i).getLast? = some u →
      pollLoop stream rt (fuel + 1) i s
        = pollLoop stream rt fuel (i + 1)
            { offset := max u.update_id s.offset
              reply_to_message_id := scanUpdates rt s.reply_to_message_id (stream i)
              lastUpdate := some u
              trace := s.trace ++ [.req (.getUpdates s.offset none), .sleep 1] }) ∧
    (∀ (stream : ℕ → List Update) (rt : ℤ) (fuel i : ℕ) (s ss : LoopState),
      pollLoop stream rt fuel i s = .ok ss → s.offset ≤ ss.offset) := by
  refine ⟨?_, pollLoop_step, pollLoop_offset_mono⟩
  intro stream respond bot_token chat_id rt rtmid i1 i2 i3 i4 i5 text doc ht h0
  obtain ⟨l, hl⟩ := run_trace_head stream respond bot_token chat_id rt rtmid
    i1 i2 i3 i4 i5 text doc ht h0
  rw [hl]
  simp [pollOffsets]

/-- C9 (amended): both delivery calls (`sendMediaGroup`, `sendMessage`)
carry a 60-second client-side timeout, but resolve-mode `getUpdates` calls
carry no client-side timeout at all. -/
theorem delivery_sixty_poll_untimed
    (stream : ℕ → List Update) (respond : Request → ℤ)
    (bot_token channel_id chat_id : String) (rt : ℤ) (rtmid : Option ℤ)
    (i1 i2 i3 i4 i5 : Option Image) (caption text : String) (doc : Bool) :
    timeoutsOK (TelegramSend.run bot_token channel_id i1 i2 i3 i4 i5 caption
        doc respond).2 ∧
    timeoutsOK (TelegramReply.run stream respond bot_token chat_id rt rtmid
        i1 i2 i3 i4 i5 text doc).2 := by
  constructor
  · simp only [TelegramSend.run]
    by_cases h : [i1, i2, i3, i4, i5].filterMap id = []
    · rw [if_pos h]; exact timeoutsOK_nil
    · rw [if_neg h]
      intro e he
      simp only [List.mem_cons, List.not_mem_nil, or_false] at he
      rw [he]
  · cases hres : pollLoop stream rt 30 0
        { offset := -1, reply_to_message_id := rtmid, lastUpdate := none,
          trace := [] } with
    | ok ss =>
        obtain ⟨rest, htr, -, -, hto⟩ := run_trace_shape stream respond bot_token
          chat_id rt rtmid i1 i2 i3 i4 i5 text doc ss hres
        rw [htr]
        exact timeoutsOK_append _ _
          ((pollLoop_timeouts stream rt 30 0 _ timeoutsOK_nil).1 ss hres) hto
    | error e =>
        rw [run_of_error stream respond bot_token chat_id rt rtmid i1 i2 i3 i4 i5
          text doc e hres]
        exact (pollLoop_timeouts stream rt 30 0 _ timeoutsOK_nil).2 e hres

/-- C9 counterexample: the very first outbound call of a resolve-mode
`reply` is a `getUpdates` request whose timeout field is `none` — no
client-side timeout is set on poll calls, refuting "every outbound call is
issued with a fixed client-side timeout". -/
theorem poll_request_lacks_timeout :
    (TelegramReply.run (fun _ => [⟨1, none⟩]) (fun _ => 9) "bot" "chat" 7 none
        (some []) none none none none "" false).2.head?
      = some (.req (.getUpdates (-1) none)) := rfl

/-- C10 (amended): the unbound-variable error occurs exactly when the
empty batch arrives before any non-empty one — in particular on the first
poll iteration: `run` then stops with a `NameError` after issuing the
single `getUpdates(-1)` request and no sleep. -/
theorem first_empty_batch_name_error
    (stream : ℕ → List Update) (respond : Request → ℤ)
    (bot_token chat_id : String) (rt : ℤ) (rtmid : Option ℤ)
    (i1 i2 i3 i4 i5 : Option Image) (text : String) (doc : Bool)
    (ht : truthyOptInt rtmid = false) (h0 : stream 0 = []) :
    TelegramReply.run stream respond bot_token chat_id rt rtmid i1 i2 i3 i4 i5
        text doc
      = (.error .nameError, [.req (.getUpdates (-1) none)]) := by
  have herr : pollLoop stream rt 30 0
      { offset := -1, reply_to_message_id := rtmid, lastUpdate := none,
        trace := [] }
      = .error (.nameError, [.req (.getUpdates (-1) none)]) := by
    rw [show (30 : ℕ) = 29 + 1 from rfl]
    simp [pollLoop, ht, h0]
  rw [run_of_error stream respond bot_token chat_id rt rtmid i1 i2 i3 i4 i5
    text doc _ herr]

/-- C10 counterexample: an empty batch on a *later* iteration does not
raise: with a non-empty first batch and empty batches thereafter, the run
completes all 30 iterations (silently reusing the stale loop variable) and
dispatches normally. -/
theorem later_empty_batch_no_error :
    (TelegramReply.run (fun k => if k = 0 then [⟨5, none⟩] else []) (fun _ => 77)
        "b" "c" 42 none (some []) none none none none "" false).1
      = .ok (none, 77) ∧
    (TelegramReply.run (fun k => if k = 0 then [⟨5, none⟩] else []) (fun _ => 77)
        "b" "c" 42 none (some []) none none none none "" false).1
      ≠ .error PyError.nameError := by
  have h : (TelegramReply.run (fun k => if k = 0 then [⟨5, none⟩] else [])
      (fun _ => 77) "b" "c" 42 none (some []) none none none none "" false).1
      = .ok (none, 77) := rfl
  refine ⟨h, ?_⟩
  rw [h]
  intro hcon
  exact Except.noConfusion hcon

/-- C1 counterexample: on a concrete never-matching stream the reply call
does not fail with any resolution-timeout error — it returns ok, and its
final outbound request is a media-group dispatch whose
`reply_to_message_id` field is present with value null. -/
theorem reply_exhausted_no_failure :
    (TelegramReply.run (fun _ => [⟨1, none⟩]) (fun _ => 77) "b" "c" 42 none
        (some []) none none none none "" false).1 = .ok (none, 77) ∧
    (TelegramReply.run (fun _ => [⟨1, none⟩]) (fun _ => 77) "b" "c" 42 none
        (some []) none none none none "" false).2.getLast?
      = some (.req (.sendMediaGroup "c" (some none)
          [⟨"photo", "attach://img0.png", none, none⟩] [("img0.png", [])]
          (some 60))) := ⟨rfl, rfl⟩

theorem reply_unresolved_dispatch_null_target_witness :
    (∀ k, k < 30 → (fun _ => [(⟨1, none⟩ : Update)]) k ≠ [] ∧
        batchNoMatch 42 ((fun _ => [(⟨1, none⟩ : Update)]) k)) ∧
    (TelegramReply.run (fun _ => [⟨1, none⟩]) (fun _ => 77) "bw" "cw" 42 none
        (some []) none none none none "" false).1
      = .ok (none, 77) := by
  have hk : ∀ k, k < 30 → (fun _ => [(⟨1, none⟩ : Update)]) k ≠ [] ∧
      batchNoMatch 42 ((fun _ => [(⟨1, none⟩ : Update)]) k) := by
    intro k _
    refine ⟨List.cons_ne_nil _ _, ?_⟩
    intro u hu m hm
    simp only [List.mem_cons, List.not_mem_nil, or_false] at hu
    rw [hu] at hm
    simp at hm
  exact ⟨hk, (reply_unresolved_dispatch_null_target (fun _ => [⟨1, none⟩])
    (fun _ => 77) "bw" "cw" 42 [] none none none none "" false hk).1⟩

theorem media_group_items_and_payload_aligned_witness :
    1 ≤ ([[], []] : List Image).length ∧ ([[], []] : List Image).length ≤ 5 ∧
    (tensors_to_media_group [[], []] "cap" false).1.length = 2 ∧
    (tensors_to_media_group [[], []] "cap" false).2.length = 2 ∧
    ((tensors_to_media_group [[], []] "cap" false).1[1]?.map MediaItem.media
      = some "attach://img1.png") := by
  refine ⟨by decide, by decide, ?_, ?_, ?_⟩
  · exact (media_group_items_and_payload_aligned [[], []] "cap" false
      (by decide) (by decide)).1
  · exact (media_group_items_and_payload_aligned [[], []] "cap" false
      (by decide) (by decide)).2.1
  · exact ((media_group_items_and_payload_aligned [[], []] "cap" false
      (by decide) (by decide)).2.2 1 (by decide)).1

theorem caption_only_on_first_item_witness :
    ((tensors_to_media_group [[], []] "c" false).1[0]?
        = some ⟨"photo", "attach://img0.png", some "c", some "HTML"⟩) ∧
    ((0 = 0 →
        (((⟨"photo", "attach://img0.png", some "c", some "HTML"⟩ : MediaItem).caption
              = some "c" ∧
          (⟨"photo", "attach://img0.png", some "c", some "HTML"⟩ : MediaItem).parse_mode
              = some "HTML") ↔ ("c" : String) ≠ "")) ∧
     (1 ≤ 0 →
        (⟨"photo", "attach://img0.png", some "c", some "HTML"⟩ : MediaItem).caption
            = none ∧
        (⟨"photo", "attach://img0.png", some "c", some "HTML"⟩ : MediaItem).parse_mode
            = none)) :=
  ⟨rfl, caption_only_on_first_item [[], []] "c" false 0
    ⟨"photo", "attach://img0.png", some "c", some "HTML"⟩ rfl⟩

theorem reply_nonzero_direct_no_polls_witness :
    (5 : ℤ) ≠ 0 ∧
    countPolls (TelegramReply.run (fun _ => [⟨1, none⟩]) (fun _ => 77) "bw" "cw" 42
        (some 5) (some []) none none none none "" false).2 = 0 :=
  ⟨by decide, (reply_nonzero_direct_no_polls (fun _ => [⟨1, none⟩]) (fun _ => 77)
      "bw" "cw" 42 5 (some []) none none none none "" false (by decide)).1⟩

theorem first_empty_batch_name_error_witness :
    truthyOptInt none = false ∧ (fun _ => ([] : List Update)) 0 = [] ∧
    TelegramReply.run (fun _ => ([] : List Update)) (fun _ => 9) "bw" "cw" 42 none
        (some []) none none none none "" false
      = (.error .nameError, [.req (.getUpdates (-1) none)]) :=
  ⟨rfl, rfl, first_empty_batch_name_error (fun _ => []) (fun _ => 9) "bw" "cw" 42
      none (some []) none none none none "" false rfl rfl⟩
